import Mathlib

/-!
Verification development for the `ms-sbom-export` service (`src/main.py`).

The service exposes one reporting endpoint, `export_sbom`, which resolves a
component / application / environment identifier into a scope, stages freshly
fetched dependency data next to persisted data, correlates packages with
vulnerabilities, classifies and sorts the result by severity, and renders five
severity tables.  This file gives a shallow embedding of that pipeline:

* Python strings are modelled as Lean `String`s; Python string operations
  (`startswith`, slicing, `split`) are modelled at the code-point level, which
  is exactly Python's semantics.
* SQL tables are lists of records; `SELECT DISTINCT` / `UNION` are modelled
  with `List.dedup` over the selected record, joins with `flatMap`/`filter`.
* The pandas stage (`merge(how="left")`, `fillna("")`, `Categorical`,
  `sort_values`, boolean-mask bucketing) is modelled by explicit list
  functions; sorting is modelled by `List.mergeSort` with the lexicographic
  key that `sort_values(by=[...])` uses (categorical code first, `NaN` last).
* Fallible calls return `Except`; the retry loop over
  `(InterfaceError, OperationalError)` is an explicit bounded recursion.

HTML rendering (`to_html`, the CSS/JS template) is out of scope: tables are
modelled as the lists of rows they would render.
-/

/-! ## Python string primitives (code-point semantics) -/

/-- Python `s.startswith(p)`: `p` is a prefix of `s` as a sequence of code
points.  (Lean's own `String.startsWith` is byte-based but extensionally the
same predicate; the code-point form is the one Python specifies.) -/
def pyStartswith (s p : String) : Bool :=
  p.data.isPrefixOf s.data

/-- Python `s[n:]`: drop the first `n` code points. -/
def pySliceFrom (s : String) (n : Nat) : String :=
  ⟨s.data.drop n⟩

/-! ## `make_clickable` (main.py lines 38-40) -/

/-- The trailing path segment of a URL: the part after the last `/`
(the whole string when it has no `/`).  Python `url.split("/")[-1]`. -/
def trailingSegment (url : String) : String :=
  (url.splitOn "/").getLastD ""

/-- main.py lines 38-40:
`anchor = url.split("/")[-1]; return f'<a href="{url}">{anchor}</a>'`.
Python `split` with an explicit separator agrees with `String.splitOn` and
always returns a non-empty list, so `[-1]` is total. -/
def make_clickable (url : String) : String :=
  let anchor := trailingSegment url
  "<a href=\"" ++ url ++ "\">" ++ anchor ++ "</a>"

/-- main.py line 420: the element-wise transform applied to the `CVE` column:
`make_clickable("https://osv.dev/vulnerability/" + x) if len(x) > 0 else x`. -/
def displayCVE (x : String) : String :=
  if 0 < x.length then make_clickable ("https://osv.dev/vulnerability/" ++ x) else x

/-- main.py lines 43-44 (unused by the pipeline, kept for completeness). -/
def is_blank (check_str : String) : Bool :=
  !(check_str != "" && check_str.trim != "")

/-! ## Identifier normalization (main.py lines 139-146)

Each of the three optional query parameters has a recognized two-letter kind
prefix stripped by Python slicing `x[2:]`; `None` stays `None`.  These are
pure functions of their argument. -/

/-- main.py lines 139-140: strip `"cv"`/`"co"` from `compid` when present. -/
def normalize_compid : Option String → Option String
  | none => none
  | some s => if pyStartswith s "cv" || pyStartswith s "co" then some (pySliceFrom s 2) else some s

/-- main.py lines 142-143: strip `"av"`/`"ap"` from `appid` when present. -/
def normalize_appid : Option String → Option String
  | none => none
  | some s => if pyStartswith s "av" || pyStartswith s "ap" then some (pySliceFrom s 2) else some s

/-- main.py lines 145-146: strip `"en"` from `envid` when present. -/
def normalize_envid : Option String → Option String
  | none => none
  | some s => if pyStartswith s "en" then some (pySliceFrom s 2) else some s

/-! ## The retry loop (main.py lines 49, 150-151, 161, 571-580)

The endpoint body runs inside `while True:` with
`except (InterfaceError, OperationalError)`: a transient storage failure at
attempt `a` sleeps 200 ms and retries while `a < no_of_retry`, and re-raises
on exhaustion; any other exception escapes the loop at once.  The storage
layer's behaviour is abstracted as a function from the attempt number to the
outcome of one full pass over the body. -/

/-- main.py line 49. -/
def DB_CONN_RETRY : Nat := 3

/-- Outcome of one execution of the retry-loop body (one full pipeline pass). -/
inductive StepOutcome where
  /-- The body ran to its `break`. -/
  | success
  /-- The body raised `InterfaceError` or `OperationalError`. -/
  | transient
  /-- The body raised some other exception (e.g. a malformed query). -/
  | nonTransient
deriving DecidableEq, Repr

/-- Final state of the retry loop together with its observable cost. -/
structure LoopResult where
  /-- `success` = the loop reached `break`; `transient` = transient failure
  re-raised after exhausting retries; `nonTransient` = other exception
  escaped immediately. -/
  outcome : StepOutcome
  /-- Number of body executions performed (the final value of `attempt`). -/
  attemptsMade : Nat
  /-- Total milliseconds slept (`sleep(0.2)` per retry, main.py line 576). -/
  sleptMs : Nat
deriving DecidableEq, Repr

/-- main.py lines 161-580: the `while True` loop starting from a given
`attempt` counter.  `step a` is the outcome of the body on attempt `a`. -/
def retryFrom (step : Nat → StepOutcome) (noOfRetry : Nat) (attempt : Nat) : LoopResult :=
  match step attempt with
  | .success => ⟨.success, attempt, 0⟩
  | .nonTransient => ⟨.nonTransient, attempt, 0⟩
  | .transient =>
    if h : attempt < noOfRetry then
      let r := retryFrom step noOfRetry (attempt + 1)
      ⟨r.outcome, r.attemptsMade, 200 + r.sleptMs⟩
    else
      ⟨.transient, attempt, 0⟩
termination_by noOfRetry - attempt
decreasing_by omega

/-- main.py lines 150-151: `no_of_retry = DB_CONN_RETRY; attempt = 1`. -/
def runRetryLoop (step : Nat → StepOutcome) (noOfRetry : Nat) : LoopResult :=
  retryFrom step noOfRetry 1

/-- The caller-visible result of the endpoint: a rendered page, or the
`HTTPException(500)` raised by the outer handler (main.py lines 1297-1301)
for any exception escaping the loop. -/
inductive HttpOutcome where
  | page
  | serverError
deriving DecidableEq, Repr

/-- Lift the loop result to the endpoint's HTTP outcome: both an exhausted
transient failure and a non-transient exception propagate to
`except Exception` and become a 500 server error. -/
def exportHttpOutcome (step : Nat → StepOutcome) (noOfRetry : Nat) : HttpOutcome :=
  match (runRetryLoop step noOfRetry).outcome with
  | .success => .page
  | .transient => .serverError
  | .nonTransient => .serverError

/-! ## The pandas stage (main.py lines 384-426)

`df_pkgs` rows carry the ten columns selected by every identifier-kind query
(lines 310-373): `appname, deploymentid, packagename, packageversion, name,
url, summary, compname, purl, pkgtype`.  `df_vulns` rows carry the six
columns of line 386.  `purl` is nullable in both. -/

/-- One row of `df_pkgs` (the package table). -/
structure PkgRow where
  appname : String
  deploymentid : Int
  packagename : String
  packageversion : String
  /-- The license name column (`b.name` in the SQL). -/
  name : String
  url : String
  summary : String
  compname : String
  purl : Option String
  pkgtype : String
deriving DecidableEq, Repr

/-- One row of `df_vulns` (the vulnerability candidate table, line 386). -/
structure VulnRow where
  id : String
  packagename : String
  packageversion : String
  purl : Option String
  cve_summary : String
  risklevel : String
deriving DecidableEq, Repr

/-- One row of the merged frame `df` after main.py lines 398-400: the left
columns minus `url`, `summary`, `purl_x`, `pkgtype`, plus the vulnerability
side columns; nulls already filled with `""` (line 399). -/
structure Row where
  appname : String
  deploymentid : Int
  packagename : String
  packageversion : String
  /-- License name (left `name` column). -/
  name : String
  compname : String
  /-- Vulnerability identifier (`""` when the package had no match). -/
  id : String
  purl_y : String
  cve_summary : String
  risklevel : String
deriving DecidableEq, Repr

/-- main.py line 393: `packagename + "@" + packageversion` of a package row. -/
def pkgKey (p : PkgRow) : String := p.packagename ++ "@" ++ p.packageversion

/-- main.py line 393: the composite-key list over all of `df_pkgs`. -/
def pkglist (pkgs : List PkgRow) : List String := pkgs.map pkgKey

/-- main.py line 394: the non-null `purl` values of `df_pkgs`. -/
def purllist (pkgs : List PkgRow) : List String := pkgs.filterMap (·.purl)

/-- The composite key of a vulnerability row (`packagename || '@' || packageversion`). -/
def vulnKey (v : VulnRow) : String := v.packagename ++ "@" ++ v.packageversion

/-- The `WHERE` condition of the vulnerability candidate query (lines 386-390):
composite key in `:pkglist`, or non-null `purl` in `:purllist` (SQL `purl =
ANY(...)` is not satisfied by a NULL `purl`). -/
def vulnSelected (pkgs : List PkgRow) (v : VulnRow) : Bool :=
  (pkglist pkgs).contains (vulnKey v) ||
    (match v.purl with
     | some u => (purllist pkgs).contains u
     | none => false)

/-- main.py lines 385-396: the deduplicated staged-plus-persisted candidate
set (`SELECT DISTINCT ... UNION SELECT DISTINCT ...` over the temporary
`dm_vulns` and the persisted `dm.dm_vulns`). -/
def df_vulns (staged persisted : List VulnRow) (pkgs : List PkgRow) : List VulnRow :=
  ((staged ++ persisted).filter (vulnSelected pkgs)).dedup

/-- The pandas merge key of line 398: equality on `packagename` and
`packageversion`. -/
def matchesPkg (p : PkgRow) (v : VulnRow) : Bool :=
  v.packagename == p.packagename && v.packageversion == p.packageversion

/-- The rows that one `df_pkgs` row contributes to
`df_pkgs.merge(df_vulns, how="left", on=["packagename", "packageversion"])`
followed by `df.fillna("")` and the column drop of line 400: one row per
matching vulnerability, or a single row with empty vulnerability fields when
nothing matches. -/
def mergedRowsFor (vulns : List VulnRow) (p : PkgRow) : List Row :=
  match vulns.filter (matchesPkg p) with
  | [] => [⟨p.appname, p.deploymentid, p.packagename, p.packageversion, p.name, p.compname,
           "", "", "", ""⟩]
  | ms@(_ :: _) =>
    ms.map (fun v =>
      ⟨p.appname, p.deploymentid, p.packagename, p.packageversion, p.name, p.compname,
       v.id, v.purl.getD "", v.cve_summary, v.risklevel⟩)

/-- main.py lines 398-400: the left outer join of the package table against
the vulnerability candidates, nulls filled with `""`. -/
def leftMergeFill (pkgs : List PkgRow) (vulns : List VulnRow) : List Row :=
  pkgs.flatMap (mergedRowsFor vulns)

/-! ## Risk classification and sorting (main.py lines 402-409)

Line 402 turns `risklevel` into a pandas `Categorical` with the ordered
category list `["Critical", "High", "Medium", "Low"]`; any other value
(including `"Unknown"` and the `""` of unmatched packages) becomes `NaN`.
`sort_values` sorts by the categorical code with `NaN` placed last, i.e. by
the rank below; lines 408-409 then turn the column back into strings with
`NaN ↦ "nan" ↦ ""`. -/

/-- The effective sort code of a `risklevel` value: the categorical code
`0..3` for the four categories of line 402, and `4` for `NaN`
(`na_position="last"`). -/
def riskRank (s : String) : Nat :=
  if s == "Critical" then 0
  else if s == "High" then 1
  else if s == "Medium" then 2
  else if s == "Low" then 3
  else 4

/-- main.py lines 402, 408, 409 composed: a recognized category survives the
`Categorical` round-trip unchanged; anything else becomes `NaN`, is printed
as `"nan"` by `astype(str)`, and is replaced by `""`. -/
def riskNormalize (s : String) : String :=
  if s == "Critical" || s == "High" || s == "Medium" || s == "Low" then s else ""

/-- The sort key of main.py line 405 (environment case):
`by=["risklevel", "packagename", "packageversion", "appname", "deploymentid"]`,
compared lexicographically. -/
def envSortKey (r : Row) : Lex (Nat × Lex (String × Lex (String × Lex (String × Int)))) :=
  toLex (riskRank r.risklevel,
    toLex (r.packagename, toLex (r.packageversion, toLex (r.appname, r.deploymentid))))

/-- The sort key of main.py line 407 (component/application case):
`by=["risklevel", "packagename", "packageversion"]`. -/
def stdSortKey (r : Row) : Lex (Nat × Lex (String × String)) :=
  toLex (riskRank r.risklevel, toLex (r.packagename, r.packageversion))

/-- Row comparison used by the environment-case sort. -/
def rowLeEnv (a b : Row) : Bool := decide (envSortKey a ≤ envSortKey b)

/-- Row comparison used by the component/application-case sort. -/
def rowLeStd (a b : Row) : Bool := decide (stdSortKey a ≤ stdSortKey b)

/-- main.py line 405: `df.sort_values(by=["risklevel", "packagename",
"packageversion", "appname", "deploymentid"])`. -/
def sortRowsEnv (rows : List Row) : List Row := rows.mergeSort rowLeEnv

/-- main.py line 407: `df.sort_values(by=["risklevel", "packagename",
"packageversion"])`. -/
def sortRowsStd (rows : List Row) : List Row := rows.mergeSort rowLeStd

/-- main.py lines 408-409 applied to every row of the sorted frame. -/
def normalizeRisk (rows : List Row) : List Row :=
  rows.map (fun r => { r with risklevel := riskNormalize r.risklevel })

/-- main.py line 420: the `CVE` column transform applied to every row
(the `CVE` column is the vulnerability `id`). -/
def applyCVE (rows : List Row) : List Row :=
  rows.map (fun r => { r with id := displayCVE r.id })

/-! ## Severity sub-tables (main.py lines 411-426)

Lines 411-418 rename and re-order the columns (`name ↦ License`,
`id ↦ CVE`, `cve_summary ↦ Description`, ...) and drop `Purl` (plus
`Application`/`Deployment` outside the environment case); lines 422-426
select the five sub-tables by the `Risk Level` value and drop the
`Risk Level` column from each before rendering.  Renaming does not touch row
contents, so the bucket filters are modelled directly on `Row` and the
rename/drop is the final projection of each sub-table. -/

/-- A rendered row of the environment-case report: columns `Application,
Deployment, Package, Version, License, CVE, Description, Component`
(line 413 order after dropping `Purl` and, per sub-table, `Risk Level`). -/
structure EnvDisplayRow where
  application : String
  deployment : Int
  package : String
  version : String
  license : String
  cve : String
  description : String
  component : String
deriving DecidableEq, Repr

/-- A rendered row of the component/application-case report: columns
`Package, Version, License, CVE, Description, Component` (line 417 order
after dropping `Application`, `Deployment`, `Purl` and `Risk Level`). -/
structure StdDisplayRow where
  package : String
  version : String
  license : String
  cve : String
  description : String
  component : String
deriving DecidableEq, Repr

/-- Lines 412-414 and the per-sub-table `drop("Risk Level")`. -/
def toEnvDisplay (r : Row) : EnvDisplayRow :=
  ⟨r.appname, r.deploymentid, r.packagename, r.packageversion, r.name,
   r.id, r.cve_summary, r.compname⟩

/-- Lines 416-418 and the per-sub-table `drop("Risk Level")`. -/
def toStdDisplay (r : Row) : StdDisplayRow :=
  ⟨r.packagename, r.packageversion, r.name, r.id, r.cve_summary, r.compname⟩

/-- The five `Risk Level` values the sub-table masks of lines 422-426 select. -/
def bucketLevels : List String := ["Critical", "High", "Medium", "Low", ""]

/-- The boolean mask of lines 422-426: rows whose normalized `Risk Level`
equals `lvl`, in frame order. -/
def bucketRows (rows : List Row) (lvl : String) : List Row :=
  rows.filter (fun r => r.risklevel == lvl)

/-- One environment-case sub-table: mask, then drop `Risk Level` (and the
renamed/reordered projection of lines 412-414). -/
def severityTableEnv (rows : List Row) (lvl : String) : List EnvDisplayRow :=
  (bucketRows rows lvl).map toEnvDisplay

/-- One component/application-case sub-table. -/
def severityTableStd (rows : List Row) (lvl : String) : List StdDisplayRow :=
  (bucketRows rows lvl).map toStdDisplay

/-! ## The persisted store (the `dm.*` tables the queries touch) -/

/-- A `dm.dm_component` row (the used columns). -/
structure ComponentRec where
  id : Int
  name : String
  status : String
deriving DecidableEq, Repr

/-- A `dm.dm_applicationcomponent` row. -/
structure AppComponentRec where
  appid : Int
  compid : Int
deriving DecidableEq, Repr

/-- A `dm.dm_componentdeps` row (the used columns). -/
structure ComponentDepRec where
  compid : Int
  packagename : String
  packageversion : String
  name : String
  url : String
  summary : String
  purl : Option String
  pkgtype : String
  deptype : String
deriving DecidableEq, Repr

/-- A `dm.dm_applist` row (the columns the ranked query uses). -/
structure ApplistRec where
  id : Int
  name : String
  created : Int
  parentid : Int
  deploymentid : Int
deriving DecidableEq, Repr

/-- A `dm.dm_deployment` row (the used columns). -/
structure DeploymentRec where
  deploymentid : Int
  appid : Int
  envid : Int
deriving DecidableEq, Repr

/-- A `dm.dm_deploymentcomps` row. -/
structure DeploymentCompRec where
  deploymentid : Int
  compid : Int
deriving DecidableEq, Repr

/-- A `dm.dm_application` row (the used columns). -/
structure ApplicationRec where
  id : Int
  name : String
deriving DecidableEq, Repr

/-- A `dm.dm_environment` row (the used columns). -/
structure EnvironmentRec where
  id : Int
  name : String
deriving DecidableEq, Repr

/-- The persisted relational store, one list per table. -/
structure Db where
  components : List ComponentRec
  applicationcomponents : List AppComponentRec
  componentdeps : List ComponentDepRec
  applist : List ApplistRec
  deployments : List DeploymentRec
  deploymentcomps : List DeploymentCompRec
  applications : List ApplicationRec
  environments : List EnvironmentRec
  /-- The persisted vulnerability corpus `dm.dm_vulns`. -/
  vulns : List VulnRow
deriving Repr

/-! ## Scope resolution (main.py lines 196-252) -/

/-- main.py lines 198-205: `select distinct compid from dm_applicationcomponent
a, dm_component b where appid = %s and a.compid = b.id and b.status = 'N'`. -/
def appScopeComplist (db : Db) (appid : Int) : List Int :=
  ((db.applicationcomponents.filter (fun a =>
      a.appid == appid &&
        db.components.any (fun b => b.id == a.compid && b.status == "N"))).map
    (·.compid)).dedup

/-- `ROW_NUMBER() OVER (PARTITION BY parentid ORDER BY created DESC)` gives a
row rank 1 exactly when no row of the same partition sorts before it; ties on
`created` are broken deterministically here by list position (the database is
free to break them arbitrarily; every property proved below holds for any
tie-break).  `q` beats `p` when `q` sorts strictly before `p` within `p`'s
partition; rows are paired with their list index. -/
def beats (q p : Nat × ApplistRec) : Bool :=
  q.2.parentid == p.2.parentid &&
    (p.2.created < q.2.created || (q.2.created == p.2.created && q.1 < p.1))

/-- `rn = 1` for the indexed row `p` of `dm.dm_applist`. -/
def rnOne (applist : List ApplistRec) (p : Nat × ApplistRec) : Bool :=
  applist.enum.all (fun q => !(beats q p))

/-- main.py lines 212-229: the `rn = 1` rows of `ranked_applist`. -/
def rankedTopRows (applist : List ApplistRec) : List (Nat × ApplistRec) :=
  applist.enum.filter (rnOne applist)

/-- main.py lines 230-239: `SELECT DISTINCT b.deploymentid FROM ranked_applist
a JOIN dm.dm_deployment b ON a.deploymentid = b.deploymentid WHERE a.rn = 1
AND a.deploymentid > 0 AND b.envid = %s`. -/
def envSelectedDeployments (db : Db) (envid : Int) : List Int :=
  (((rankedTopRows db.applist).filter (fun p =>
      (0 : Int) < p.2.deploymentid &&
        db.deployments.any (fun b =>
          b.deploymentid == p.2.deploymentid && b.envid == envid))).map
    (·.2.deploymentid)).dedup

/-- main.py lines 210-246: `select distinct b.compid, b.deploymentid from
dm.dm_deploymentcomps b where b.deploymentid in (...)`. -/
def envScopePairs (db : Db) (envid : Int) : List (Int × Int) :=
  ((db.deploymentcomps.filter (fun b =>
      (envSelectedDeployments db envid).contains b.deploymentid)).map
    (fun b => (b.compid, b.deploymentid))).dedup

/-- main.py lines 248-249: the `compid`s appended to `complist`. -/
def envComplist (db : Db) (envid : Int) : List Int :=
  (envScopePairs db envid).map (·.1)

/-- main.py lines 248-250: the `deploymentid`s appended to `deploylist`. -/
def envDeploylist (db : Db) (envid : Int) : List Int :=
  (envScopePairs db envid).map (·.2)

/-- main.py lines 196-252: `complist` after the two optional contributions and
the final `complist = list(set(complist))` (line 252).  Python's `set` loses
order; `dedup` fixes one order, and only the set is ever used. -/
def scopeComplist (db : Db) (appid envid : Option Int) : List Int :=
  ((match appid with | some a => appScopeComplist db a | none => []) ++
   (match envid with | some e => envComplist db e | none => [])).dedup

/-! ## External enrichment (main.py lines 253-305) -/

/-- A record of the license-scoped enrichment response (line 270). -/
structure DepPkgRec where
  key : Int
  packagename : String
  packageversion : String
  name : String
  url : String
  summary : String
  pkgtype : String
deriving DecidableEq, Repr

/-- A record of the vulnerability-bearing enrichment response (line 297). -/
structure DepVulnRec where
  packagename : String
  packageversion : String
  name : String
  url : String
  summary : String
  risklevel : String
deriving DecidableEq, Repr

/-- Outcome of one `requests.get(url, timeout=120)` plus
`raise_for_status()` plus `response.json().get("data", None)`. -/
inductive FetchResult (α : Type) where
  /-- `requests.exceptions.RequestException` raised by the GET itself. -/
  | netError
  /-- `requests.exceptions.HTTPError` raised by `raise_for_status()`. -/
  | httpError
  /-- A successful response; `dataField` is its `data` field, `none` when the
  field is absent. -/
  | ok (dataField : Option (List α))
deriving DecidableEq, Repr

/-- A staged `dm_sbom` row (insert of lines 267-274); note `purl` is inserted
as the literal empty string (line 270). -/
structure SbomStageRec where
  compid : Int
  packagename : String
  packageversion : String
  name : String
  url : String
  summary : String
  purl : String
  pkgtype : String
deriving DecidableEq, Repr

/-- Line 270: shape one license record into a `dm_sbom` row. -/
def stagePkg (r : DepPkgRec) : SbomStageRec :=
  ⟨r.key, r.packagename, r.packageversion, r.name, r.url, r.summary, "", r.pkgtype⟩

/-- Line 297: shape one vulnerability record into a `dm_vulns` row
(`id ← name`, `purl ← url`). -/
def stageVuln (r : DepVulnRec) : VulnRow :=
  ⟨r.name, r.packagename, r.packageversion, some r.url, r.summary, r.risklevel⟩

/-- main.py lines 254-305 (one call): the rows a fetch stages.  The two
`except` arms (lines 276-279, 302-305) log and swallow the error, staging
nothing; a response without a `data` field fails the `rows is not None`
guard and also stages nothing. -/
def fetchStaged {α β : Type} (shape : α → β) : FetchResult α → List β
  | .netError => []
  | .httpError => []
  | .ok none => []
  | .ok (some rows) => rows.map shape

/-! ## The per-kind package queries (main.py lines 307-382) -/

/-- Shape a staged `dm_sbom` row into a `df_pkgs` row (its `purl` column is a
non-null string, so it is `some`). -/
def pkgRowOfStage (appname : String) (deploymentid : Int) (b : SbomStageRec)
    (compname : String) : PkgRow :=
  ⟨appname, deploymentid, b.packagename, b.packageversion, b.name, b.url, b.summary,
   compname, some b.purl, b.pkgtype⟩

/-- Shape a persisted `dm.dm_componentdeps` row into a `df_pkgs` row. -/
def pkgRowOfDep (appname : String) (deploymentid : Int) (b : ComponentDepRec)
    (compname : String) : PkgRow :=
  ⟨appname, deploymentid, b.packagename, b.packageversion, b.name, b.url, b.summary,
   compname, b.purl, b.pkgtype⟩

/-- main.py lines 310-320: the component-kind query — staged rows for the
component unioned with its persisted license-type dependency rows, joined to
`dm.dm_component` for the component name; `UNION` deduplicates. -/
def compPkgQuery (db : Db) (staged : List SbomStageRec) (objid : Int) : List PkgRow :=
  ((staged.filter (fun b => b.compid == objid)).flatMap (fun b =>
      (db.components.filter (fun c => c.id == b.compid)).map (pkgRowOfStage "" 0 b ·.name))
    ++
    (db.componentdeps.filter (fun b => b.compid == objid && b.deptype == "license")).flatMap
      (fun b =>
        (db.components.filter (fun c => c.id == b.compid)).map
          (pkgRowOfDep "" 0 b ·.name))).dedup

/-- main.py lines 322-330: the application-kind query, over the components
attached to the application. -/
def appPkgQuery (db : Db) (staged : List SbomStageRec) (objid : Int) : List PkgRow :=
  ((db.applicationcomponents.filter (fun a => a.appid == objid)).flatMap (fun a =>
      (staged.filter (fun b => b.compid == a.compid)).flatMap (fun b =>
        (db.components.filter (fun c => c.id == b.compid)).map
          (pkgRowOfStage "" 0 b ·.name)))
    ++
    (db.applicationcomponents.filter (fun a => a.appid == objid)).flatMap (fun a =>
      (db.componentdeps.filter (fun b => a.compid == b.compid && b.deptype == "license")).flatMap
        (fun b =>
          (db.components.filter (fun c => c.id == b.compid)).map
            (pkgRowOfDep "" 0 b ·.name)))).dedup

/-- main.py lines 333-373: the environment-kind query — persisted dependency
rows (no `deptype` filter in this shape) unioned with staged rows, joined
through application / deployment / application-component, restricted to the
resolved deployment list, carrying `appname` and `deploymentid` through. -/
def envPkgQuery (db : Db) (staged : List SbomStageRec) (deploylist : List Int) : List PkgRow :=
  ((db.applications.flatMap (fun a =>
      (db.deployments.filter (fun b =>
          b.appid == a.id && deploylist.contains b.deploymentid)).flatMap (fun b =>
        (db.applicationcomponents.filter (fun c => c.appid == a.id)).flatMap (fun c =>
          (db.componentdeps.filter (fun d => d.compid == c.compid)).flatMap (fun d =>
            (db.components.filter (fun e => e.id == c.compid)).map
              (pkgRowOfDep a.name b.deploymentid d ·.name))))))
    ++
    (db.applications.flatMap (fun a =>
      (db.deployments.filter (fun b =>
          b.appid == a.id && deploylist.contains b.deploymentid)).flatMap (fun b =>
        (db.applicationcomponents.filter (fun c => c.appid == a.id)).flatMap (fun c =>
          (staged.filter (fun d => d.compid == c.compid)).flatMap (fun d =>
            (db.components.filter (fun e => e.id == c.compid)).map
              (pkgRowOfStage a.name b.deploymentid d ·.name))))))).dedup

/-! ## Report assembly and the endpoint body (main.py lines 148-580, 1295-1301) -/

/-- main.py lines 433-439: `objname` after the loop over
`select name from dm.dm_component where id = %s` (last row wins; stays `""`
when the lookup is empty). -/
def compObjname (db : Db) (c : Int) : String :=
  (db.components.filter (fun r => r.id == c)).foldl (fun _ r => "Component<br>" ++ r.name) ""

/-- main.py lines 463-468: the application variant. -/
def appObjname (db : Db) (a : Int) : String :=
  (db.applications.filter (fun r => r.id == a)).foldl (fun _ r => "Application<br>" ++ r.name) ""

/-- main.py lines 496-501: the environment variant. -/
def envObjname (db : Db) (e : Int) : String :=
  (db.environments.filter (fun r => r.id == e)).foldl (fun _ r => "Environment<br>" ++ r.name) ""

/-- The five severity tables of the report.  `empty` models the `len(df_pkgs.index) > 0`
guard of line 384 failing, where all five stay the initial `""` (lines 155-159). -/
inductive ReportTables where
  | empty
  | std (critical high medium low good : List StdDisplayRow)
  | env (critical high medium low good : List EnvDisplayRow)
deriving DecidableEq, Repr

/-- main.py lines 384-426 for one identifier kind: correlate, sort, normalize,
linkify and partition, or leave the tables empty when `df_pkgs` has no rows. -/
def buildTables (isEnv : Bool) (pkgs : List PkgRow) (stagedV persistedV : List VulnRow) :
    ReportTables :=
  if pkgs.isEmpty then .empty
  else
    let df := leftMergeFill pkgs (df_vulns stagedV persistedV pkgs)
    if isEnv then
      let final := applyCVE (normalizeRisk (sortRowsEnv df))
      .env (severityTableEnv final "Critical") (severityTableEnv final "High")
        (severityTableEnv final "Medium") (severityTableEnv final "Low")
        (severityTableEnv final "")
    else
      let final := applyCVE (normalizeRisk (sortRowsStd df))
      .std (severityTableStd final "Critical") (severityTableStd final "High")
        (severityTableStd final "Medium") (severityTableStd final "Low")
        (severityTableStd final "")

/-- The data content of the rendered report (cover object name plus the five
severity tables; the ownership/provenance section and all styling are out of
scope). -/
structure Report where
  objname : String
  tables : ReportTables
deriving DecidableEq, Repr

/-- A Python exception escaping one pass of the body that is *not* an
`InterfaceError`/`OperationalError` (those are the `StepOutcome.transient`
case of the retry model). -/
inductive PyError where
  /-- `psycopg2.ProgrammingError`: executing the empty SQL string that
  line 307 leaves in `sqlstmt` when no identifier matched any branch
  (PostgreSQL: `can't execute an empty query`). -/
  | emptyQuery
  /-- A bound-parameter mismatch: the selected statement's parameter names do
  not match the parameter set chosen by lines 377-382. -/
  | paramMismatch
deriving DecidableEq, Repr

/-- One pass of the endpoint body over a healthy store (main.py lines
163-569), from scope resolution to the assembled report.  Identifier keys are
taken post-normalization in numeric form; `configured` is
`len(deppkg_url) > 0`.  Transient connectivity failures are the subject of
the separate retry model (`retryFrom`), which re-runs this whole body. -/
def pipelineBody (db : Db) (configured : Bool) (compid appid envid : Option Int)
    (fetch1 : FetchResult DepPkgRec) (fetch2 : FetchResult DepVulnRec) :
    Except PyError Report :=
  -- lines 167-194: CREATE TEMPORARY TABLE IF NOT EXISTS — idempotent, no effect here
  -- line 253: enrichment runs only when configured and some identifier is present
  let anyId := compid.isSome || appid.isSome || envid.isSome
  let staged := if configured && anyId then fetchStaged stagePkg fetch1 else []
  let stagedV := if configured && anyId then fetchStaged stageVuln fetch2 else []
  -- lines 307-382: pick the query shape (compid, then appid, then envid) and
  -- bind either the :deploy parameter (envid present) or :objid
  match compid, appid, envid with
  | some _, _, some _ => .error .paramMismatch
  | none, some _, some _ => .error .paramMismatch
  | some c, _, none =>
    .ok ⟨compObjname db c, buildTables false (compPkgQuery db staged c) stagedV db.vulns⟩
  | none, some a, none =>
    .ok ⟨appObjname db a, buildTables false (appPkgQuery db staged a) stagedV db.vulns⟩
  | none, none, some e =>
    .ok ⟨envObjname db e,
      buildTables true (envPkgQuery db staged ((envDeploylist db e).dedup)) stagedV db.vulns⟩
  | none, none, none => .error .emptyQuery

/-- What the caller of the endpoint observes. -/
inductive EndpointResult where
  /-- The HTML response of line 1295. -/
  | html (r : Report)
  /-- The `HTTPException(500, ...)` of line 1301. -/
  | error500
deriving DecidableEq, Repr

/-- The endpoint over a healthy store: a `PyError` is not an
`InterfaceError`/`OperationalError`, so it escapes the retry loop on its
first occurrence and the outer handler (lines 1299-1301) turns it into a 500
response; a completed body is returned as HTML (line 1295). -/
def exportEndpoint (db : Db) (configured : Bool) (compid appid envid : Option Int)
    (fetch1 : FetchResult DepPkgRec) (fetch2 : FetchResult DepVulnRec) : EndpointResult :=
  match pipelineBody db configured compid appid envid fetch1 fetch2 with
  | .ok r => .html r
  | .error _ => .error500

/-! ## Helper lemmas -/

/-- The retry loop never reports fewer attempts than it started with. -/
theorem retryFrom_le_attempts (step : Nat → StepOutcome) (n a : Nat) :
    a ≤ (retryFrom step n a).attemptsMade := by
  rw [retryFrom]
  cases hs : step a with
  | success => simp
  | nonTransient => simp
  | transient =>
    by_cases h : a < n
    · simp only [h, dif_pos]
      have := retryFrom_le_attempts step n (a + 1)
      omega
    · simp [h]
termination_by n - a
decreasing_by omega

/-- Each retry sleeps exactly 200 ms: total sleep is 200 ms per extra attempt. -/
theorem retryFrom_sleptMs (step : Nat → StepOutcome) (n a : Nat) :
    (retryFrom step n a).sleptMs = 200 * ((retryFrom step n a).attemptsMade - a) := by
  rw [retryFrom]
  cases hs : step a with
  | success => simp
  | nonTransient => simp
  | transient =>
    by_cases h : a < n
    · simp only [h, dif_pos]
      have h1 := retryFrom_sleptMs step n (a + 1)
      have h2 := retryFrom_le_attempts step n (a + 1)
      omega
    · simp [h]
termination_by n - a
decreasing_by omega

/-! ## C3 — retry semantics -/

/-- C3: a transient storage failure is retried with a fixed 200 ms delay up to
the retry bound (3 by default), counted per top-level request.  For a storage
layer failing transiently on the first two attempts and succeeding on the
third: with bound 3 the loop completes (3 attempts, 2 × 200 ms slept) and the
request renders the page; with bound 2 the transient failure is re-raised on
exhaustion and surfaces as a 500 server error.  A non-transient failure
propagates immediately: one attempt, no sleep, 500 server error.  In every
run the total delay is exactly 200 ms per retry performed. -/
theorem claim_C3 (step : Nat → StepOutcome)
    (h1 : step 1 = .transient) (h2 : step 2 = .transient) (h3 : step 3 = .success) :
    (runRetryLoop step DB_CONN_RETRY = ⟨.success, 3, 400⟩ ∧
      exportHttpOutcome step DB_CONN_RETRY = .page) ∧
    (runRetryLoop step 2 = ⟨.transient, 2, 200⟩ ∧
      exportHttpOutcome step 2 = .serverError) ∧
    (∀ st : Nat → StepOutcome, ∀ n, st 1 = StepOutcome.nonTransient →
      runRetryLoop st n = ⟨.nonTransient, 1, 0⟩ ∧ exportHttpOutcome st n = .serverError) ∧
    (∀ st : Nat → StepOutcome, ∀ n,
      (runRetryLoop st n).sleptMs = 200 * ((runRetryLoop st n).attemptsMade - 1)) := by
  refine ⟨⟨?_, ?_⟩, ⟨?_, ?_⟩, ?_, ?_⟩
  · rw [runRetryLoop, DB_CONN_RETRY, retryFrom, h1]
    norm_num
    rw [retryFrom, h2]
    norm_num
    rw [retryFrom, h3]
    simp
  · rw [exportHttpOutcome, runRetryLoop, DB_CONN_RETRY, retryFrom, h1]
    norm_num
    rw [retryFrom, h2]
    norm_num
    rw [retryFrom, h3]
  · rw [runRetryLoop, retryFrom, h1]
    norm_num
    rw [retryFrom, h2]
    norm_num
  · rw [exportHttpOutcome, runRetryLoop, retryFrom, h1]
    norm_num
    rw [retryFrom, h2]
    norm_num
  · intro st n hst
    constructor
    · rw [runRetryLoop, retryFrom, hst]
    · rw [exportHttpOutcome, runRetryLoop, retryFrom, hst]
  · intro st n
    exact retryFrom_sleptMs st n 1

/-- C3 witness: the scenario instantiated with a concrete storage layer that
fails transiently on attempts 1 and 2 and succeeds on attempt 3. -/
theorem claim_C3_witness :
    runRetryLoop (fun k => if k ≤ 2 then StepOutcome.transient else .success) DB_CONN_RETRY =
        ⟨.success, 3, 400⟩ ∧
    exportHttpOutcome (fun k => if k ≤ 2 then StepOutcome.transient else .success) DB_CONN_RETRY =
        .page ∧
    exportHttpOutcome (fun k => if k ≤ 2 then StepOutcome.transient else .success) 2 =
        .serverError :=
  ⟨(claim_C3 _ rfl rfl rfl).1.1, (claim_C3 _ rfl rfl rfl).1.2, (claim_C3 _ rfl rfl rfl).2.1.2⟩

/-! ## C5 — behaviour when no identifier is supplied

With `compid = appid = envid = None`, lines 307-374 leave `sqlstmt = ""` and
`objid = None`, and line 382 executes that empty statement through
`pd.read_sql(sql.text(""), connection, params={"objid": None})`.  PostgreSQL
rejects an empty statement (`psycopg2.ProgrammingError: can't execute an
empty query`), which is neither an `InterfaceError` nor an
`OperationalError`, so it escapes the retry loop at once and the outer
handler turns it into `HTTPException(500)`.  The endpoint therefore *fails*
on an empty scope instead of returning an empty report. -/

/-- C5 counterexample: with no identifier supplied the endpoint returns the
500 error response, not an (empty) report — evaluated on a concrete store. -/
theorem claim_C5_counterexample :
    exportEndpoint ⟨[], [], [], [], [], [], [], [], []⟩ true none none none
        (.ok none) (.ok none) = .error500 ∧
    scopeComplist ⟨[], [], [], [], [], [], [], [], []⟩ none none = [] :=
  ⟨rfl, rfl⟩

/-- C5 amended: when none of the three identifiers is supplied, the resolved
scope is empty, but the request *fails*: the body executes the empty package
query left in `sqlstmt`, the resulting non-transient storage error is not
retried, and the endpoint surfaces it as a 500 server error instead of
returning an empty report. -/
theorem claim_C5_amended (db : Db) (configured : Bool)
    (f1 : FetchResult DepPkgRec) (f2 : FetchResult DepVulnRec) :
    scopeComplist db none none = [] ∧
    pipelineBody db configured none none none f1 f2 = .error .emptyQuery ∧
    exportEndpoint db configured none none none f1 f2 = .error500 := by
  refine ⟨?_, rfl, rfl⟩
  simp [scopeComplist]

/-! ## C4 — enrichment is best-effort -/

/-- C4: an HTTP or network error raised by either enrichment GET call is
caught (logged and swallowed), that call stages no data, a response without a
`data` field stages no data without being an error, and the pipeline result
is exactly what it would be had the calls returned no data — it continues on
persisted data alone and, whenever an identifier is present (and an
environment identifier is not mixed with another kind, which would fail for
unrelated parameter-binding reasons), completes without a fatal error. -/
theorem claim_C4 (db : Db) (configured : Bool) (compid appid envid : Option Int)
    (f1 : FetchResult DepPkgRec) (f2 : FetchResult DepVulnRec)
    (h1 : f1 = .netError ∨ f1 = .httpError) (h2 : f2 = .netError ∨ f2 = .httpError) :
    fetchStaged stagePkg f1 = [] ∧
    fetchStaged stageVuln f2 = [] ∧
    (∀ β : Type, ∀ shape : DepPkgRec → β, fetchStaged shape (.ok none) = []) ∧
    pipelineBody db configured compid appid envid f1 f2 =
      pipelineBody db configured compid appid envid (.ok none) (.ok none) ∧
    ((compid.isSome || appid.isSome || envid.isSome) = true →
      (envid.isSome = true → compid = none ∧ appid = none) →
      ∃ r, pipelineBody db configured compid appid envid f1 f2 = .ok r) := by
  refine ⟨?_, ?_, fun β shape => rfl, ?_, ?_⟩
  · rcases h1 with h | h <;> rw [h] <;> rfl
  · rcases h2 with h | h <;> rw [h] <;> rfl
  · rcases h1 with h | h <;> rcases h2 with h' | h' <;> rw [h, h'] <;> rfl
  · intro hany hmix
    match hc : compid, ha : appid, he : envid with
    | some c, _, none => exact ⟨_, rfl⟩
    | none, some a, none => exact ⟨_, rfl⟩
    | none, none, some e => exact ⟨_, rfl⟩
    | none, none, none => simp at hany
    | some c, _, some e => exact absurd (hmix rfl).1 (by simp)
    | none, some a, some e => exact absurd (hmix rfl).2 (by simp)

/-- C4 witness: both enrichment calls failing on a concrete store and a
concrete component request. -/
theorem claim_C4_witness :
    fetchStaged stagePkg (FetchResult.netError : FetchResult DepPkgRec) = [] ∧
    pipelineBody ⟨[], [], [], [], [], [], [], [], []⟩ true (some 1) none none
        .netError .httpError =
      pipelineBody ⟨[], [], [], [], [], [], [], [], []⟩ true (some 1) none none
        (.ok none) (.ok none) ∧
    ∃ r, pipelineBody ⟨[], [], [], [], [], [], [], [], []⟩ true (some 1) none none
        .netError .httpError = .ok r := by
  have h := claim_C4 ⟨[], [], [], [], [], [], [], [], []⟩ true (some 1) none none
    .netError .httpError (Or.inl rfl) (Or.inr rfl)
  exact ⟨h.1, h.2.2.2.1, h.2.2.2.2 rfl (fun hc => by simp at hc)⟩

/-! ## C7 — identifier normalization -/

/-- A two-code-point prefix hit decomposes the string: the first two code
points are exactly the prefix, and Python's `s[2:]` is exactly the rest. -/
theorem startswith_strip2 {s p : String} (hlen : p.data.length = 2)
    (h : pyStartswith s p = true) :
    s.data.take 2 = p.data ∧ s.data = s.data.take 2 ++ (pySliceFrom s 2).data := by
  have hpre : p.data <+: s.data := List.isPrefixOf_iff_prefix.1 h
  have hd : p.data ++ s.data.drop 2 = s.data := by
    have h0 := List.prefix_iff_eq_append.1 hpre
    rwa [hlen] at h0
  have htake : s.data.take 2 = p.data := by
    conv_lhs => rw [← hd]
    rw [← hlen, List.take_left]
  exact ⟨htake, (List.take_append_drop 2 s.data).symm⟩

/-- C7: normalization strips exactly a recognized two-letter kind prefix and
nothing else — when `compid` starts with `"cv"`/`"co"` (resp. `appid` with
`"av"`/`"ap"`, `envid` with `"en"`), the result is the input minus exactly
its first two characters, which are the recognized prefix; with no
recognized prefix the value is unchanged; an absent identifier stays absent.
Each normalizer is a pure function (a Lean `def` with no state). -/
theorem claim_C7 :
    (∀ s : String, (pyStartswith s "cv" || pyStartswith s "co") = true →
      normalize_compid (some s) = some (pySliceFrom s 2) ∧
      s.data = s.data.take 2 ++ (pySliceFrom s 2).data ∧
      (s.data.take 2 = "cv".data ∨ s.data.take 2 = "co".data)) ∧
    (∀ s : String, (pyStartswith s "cv" || pyStartswith s "co") = false →
      normalize_compid (some s) = some s) ∧
    (∀ s : String, (pyStartswith s "av" || pyStartswith s "ap") = true →
      normalize_appid (some s) = some (pySliceFrom s 2) ∧
      s.data = s.data.take 2 ++ (pySliceFrom s 2).data ∧
      (s.data.take 2 = "av".data ∨ s.data.take 2 = "ap".data)) ∧
    (∀ s : String, (pyStartswith s "av" || pyStartswith s "ap") = false →
      normalize_appid (some s) = some s) ∧
    (∀ s : String, pyStartswith s "en" = true →
      normalize_envid (some s) = some (pySliceFrom s 2) ∧
      s.data = s.data.take 2 ++ (pySliceFrom s 2).data ∧
      s.data.take 2 = "en".data) ∧
    (∀ s : String, pyStartswith s "en" = false → normalize_envid (some s) = some s) ∧
    normalize_compid none = none ∧ normalize_appid none = none ∧
    normalize_envid none = none := by
  refine ⟨?_, ?_, ?_, ?_, ?_, ?_, rfl, rfl, rfl⟩
  · intro s h
    refine ⟨by simp [normalize_compid, h], ?_⟩
    rcases Bool.or_eq_true_iff.1 h with h' | h'
    · have := startswith_strip2 (p := "cv") rfl h'
      exact ⟨this.2, Or.inl this.1⟩
    · have := startswith_strip2 (p := "co") rfl h'
      exact ⟨this.2, Or.inr this.1⟩
  · intro s h
    simp [normalize_compid, h]
  · intro s h
    refine ⟨by simp [normalize_appid, h], ?_⟩
    rcases Bool.or_eq_true_iff.1 h with h' | h'
    · have := startswith_strip2 (p := "av") rfl h'
      exact ⟨this.2, Or.inl this.1⟩
    · have := startswith_strip2 (p := "ap") rfl h'
      exact ⟨this.2, Or.inr this.1⟩
  · intro s h
    simp [normalize_appid, h]
  · intro s h
    have := startswith_strip2 (p := "en") rfl h
    exact ⟨by simp [normalize_envid, h], this.2, this.1⟩
  · intro s h
    simp [normalize_envid, h]

/-- C7 witness: concrete identifiers for all three normalizers. -/
theorem claim_C7_witness :
    normalize_compid (some "co42") = some (pySliceFrom "co42" 2) ∧
    normalize_appid (some "av7") = some (pySliceFrom "av7" 2) ∧
    normalize_envid (some "en9") = some (pySliceFrom "en9" 2) ∧
    normalize_compid (some "42") = some "42" :=
  ⟨(claim_C7.1 "co42" (by decide)).1, (claim_C7.2.2.1 "av7" (by decide)).1,
   (claim_C7.2.2.2.2.1 "en9" (by decide)).1, claim_C7.2.1 "42" (by decide)⟩

/-! ## C9 — CVE display transform -/

/-- C9: for every row, a non-empty vulnerability identifier is displayed as
an HTML anchor whose `href` is `"https://osv.dev/vulnerability/" ++ id` and
whose label is the trailing path segment of that URL; the empty identifier
stays the empty string with no link. -/
theorem claim_C9 (x : String) :
    (x = "" → displayCVE x = "") ∧
    (x ≠ "" →
      displayCVE x =
        "<a href=\"" ++ ("https://osv.dev/vulnerability/" ++ x) ++ "\">" ++
          trailingSegment ("https://osv.dev/vulnerability/" ++ x) ++ "</a>") := by
  constructor
  · rintro rfl
    rfl
  · intro hne
    have hpos : 0 < x.length := by
      cases hx : x.data with
      | nil =>
        exact absurd (by cases x with | mk d => cases hx; rfl) hne
      | cons c cs =>
        show 0 < x.data.length
        rw [hx]
        simp
    rw [displayCVE, if_pos hpos]
    rfl

/-- C9 witness: a concrete identifier and the empty identifier. -/
theorem claim_C9_witness :
    displayCVE "CVE-2024-12345" =
      "<a href=\"" ++ ("https://osv.dev/vulnerability/" ++ "CVE-2024-12345") ++ "\">" ++
        trailingSegment ("https://osv.dev/vulnerability/" ++ "CVE-2024-12345") ++ "</a>" ∧
    displayCVE "" = "" :=
  ⟨(claim_C9 "CVE-2024-12345").2 (by decide), (claim_C9 "").1 rfl⟩

/-! ## C6 — environment scope resolution -/

/-- A rank-1 row is beaten by nobody. -/
theorem rnOne_not_beaten {applist : List ApplistRec} {p : Nat × ApplistRec}
    (h : rnOne applist p = true) :
    ∀ q ∈ applist.enum, beats q p = false := by
  intro q hq
  have := List.all_eq_true.1 h q hq
  rwa [Bool.not_eq_true'] at this

/-- C6: within each lineage group (rows of `dm.dm_applist` sharing a
`parentid`) the ranked subquery keeps at most one row — one whose `created`
is maximal in the group; only strictly positive deployment keys enter the
resolved deployment set; and the resolved component-key set is deduplicated,
so a component reached via several deployments appears exactly once in the
scope. -/
theorem claim_C6 (db : Db) (envid : Int) :
    (∀ p ∈ rankedTopRows db.applist, ∀ q ∈ rankedTopRows db.applist,
      p.2.parentid = q.2.parentid → p = q) ∧
    (∀ p ∈ rankedTopRows db.applist, ∀ q ∈ db.applist.enum,
      q.2.parentid = p.2.parentid → q.2.created ≤ p.2.created) ∧
    (∀ d ∈ envSelectedDeployments db envid, 0 < d) ∧
    (∀ appid : Option Int, (scopeComplist db appid (some envid)).Nodup) ∧
    (∀ c ∈ envComplist db envid, (scopeComplist db none (some envid)).count c = 1) := by
  refine ⟨?_, ?_, ?_, ?_, ?_⟩
  · rintro ⟨i, a⟩ hp ⟨j, b⟩ hq hpar
    obtain ⟨hpe, hpr⟩ := List.mem_filter.1 hp
    obtain ⟨hqe, hqr⟩ := List.mem_filter.1 hq
    have hbp := rnOne_not_beaten hpr
    have hbq := rnOne_not_beaten hqr
    have hpar2 : a.parentid = b.parentid := hpar
    rcases lt_trichotomy a.created b.created with hlt | heq | hgt
    · have : beats (j, b) (i, a) = true := by simp [beats, hpar2.symm, hlt]
      rw [hbp _ hqe] at this
      cases this
    · rcases lt_trichotomy i j with hij | hij | hij
      · have : beats (i, a) (j, b) = true := by simp [beats, hpar2, heq, hij]
        rw [hbq _ hpe] at this
        cases this
      · subst hij
        have ha := List.mk_mem_enum_iff_getElem?.1 hpe
        have hb := List.mk_mem_enum_iff_getElem?.1 hqe
        rw [ha] at hb
        cases hb
        rfl
      · have : beats (j, b) (i, a) = true := by simp [beats, hpar2.symm, heq.symm, hij]
        rw [hbp _ hqe] at this
        cases this
    · have : beats (i, a) (j, b) = true := by simp [beats, hpar2, hgt]
      rw [hbq _ hpe] at this
      cases this
  · rintro ⟨i, a⟩ hp ⟨j, b⟩ hq hpar
    obtain ⟨hpe, hpr⟩ := List.mem_filter.1 hp
    have hbp := rnOne_not_beaten hpr
    have hpar2 : b.parentid = a.parentid := hpar
    by_contra hcon
    have hlt : a.created < b.created := not_le.1 hcon
    have : beats (j, b) (i, a) = true := by simp [beats, hpar2, hlt]
    rw [hbp _ hq] at this
    cases this
  · intro d hd
    rw [envSelectedDeployments, List.mem_dedup] at hd
    obtain ⟨p, hp, rfl⟩ := List.mem_map.1 hd
    have hcond := (List.mem_filter.1 hp).2
    simp only [Bool.and_eq_true, decide_eq_true_eq] at hcond
    exact hcond.1
  · intro appid
    exact List.nodup_dedup _
  · intro c hc
    have hmem : c ∈ scopeComplist db none (some envid) := by
      rw [scopeComplist, List.mem_dedup]
      simpa using hc
    have h1 : (scopeComplist db none (some envid)).count c ≤ 1 :=
      List.nodup_iff_count_le_one.1 (List.nodup_dedup _) c
    have h2 : 0 < (scopeComplist db none (some envid)).count c :=
      List.count_pos_iff.2 hmem
    omega

/-- A small concrete store for the C6 witness: one lineage (parent 10) with
two deployments of which the newer is kept, and one lineage (parent 20)
whose only deployment key is negative. -/
def dbC6 : Db :=
  ⟨[], [], [],
   [⟨1, "a", 100, 10, 5⟩, ⟨2, "b", 200, 10, 6⟩, ⟨3, "c", 50, 20, -1⟩],
   [⟨5, 1, 7⟩, ⟨6, 1, 7⟩],
   [⟨6, 101⟩, ⟨6, 102⟩, ⟨5, 101⟩],
   [], [], []⟩

/-- C6 witness: on `dbC6`, deployment 6 (the newer one of lineage 10) is
selected and positive, and component 101 appears exactly once in the scope. -/
theorem claim_C6_witness :
    6 ∈ envSelectedDeployments dbC6 7 ∧ (0 : Int) < 6 ∧
    101 ∈ envComplist dbC6 7 ∧
    (scopeComplist dbC6 none (some 7)).count 101 = 1 :=
  ⟨by decide, (claim_C6 dbC6 7).2.2.1 6 (by decide), by decide,
   (claim_C6 dbC6 7).2.2.2.2 101 (by decide)⟩

/-! ## Sorting helper lemmas -/

/-- The environment-case comparison is transitive. -/
theorem rowLeEnv_trans : ∀ a b c : Row,
    rowLeEnv a b = true → rowLeEnv b c = true → rowLeEnv a c = true := by
  intro a b c hab hbc
  simp only [rowLeEnv, decide_eq_true_eq] at *
  exact le_trans hab hbc

/-- The environment-case comparison is total. -/
theorem rowLeEnv_total : ∀ a b : Row, (rowLeEnv a b || rowLeEnv b a) = true := by
  intro a b
  simp only [rowLeEnv, Bool.or_eq_true_iff, decide_eq_true_eq]
  exact le_total _ _

/-- The component/application-case comparison is transitive. -/
theorem rowLeStd_trans : ∀ a b c : Row,
    rowLeStd a b = true → rowLeStd b c = true → rowLeStd a c = true := by
  intro a b c hab hbc
  simp only [rowLeStd, decide_eq_true_eq] at *
  exact le_trans hab hbc

/-- The component/application-case comparison is total. -/
theorem rowLeStd_total : ∀ a b : Row, (rowLeStd a b || rowLeStd b a) = true := by
  intro a b
  simp only [rowLeStd, Bool.or_eq_true_iff, decide_eq_true_eq]
  exact le_total _ _

/-- The environment-case sort output is pairwise ordered. -/
theorem sortRowsEnv_pairwise (rows : List Row) :
    List.Pairwise (fun a b => rowLeEnv a b = true) (sortRowsEnv rows) :=
  List.sorted_mergeSort rowLeEnv_trans rowLeEnv_total rows

/-- The component/application-case sort output is pairwise ordered. -/
theorem sortRowsStd_pairwise (rows : List Row) :
    List.Pairwise (fun a b => rowLeStd a b = true) (sortRowsStd rows) :=
  List.sorted_mergeSort rowLeStd_trans rowLeStd_total rows

/-- Unfold the environment-case comparison into the five-level lexicographic
disjunction it decides. -/
theorem rowLeEnv_elim {a b : Row} (h : rowLeEnv a b = true) :
    riskRank a.risklevel < riskRank b.risklevel ∨
      (riskRank a.risklevel = riskRank b.risklevel ∧
        (a.packagename < b.packagename ∨ (a.packagename = b.packagename ∧
          (a.packageversion < b.packageversion ∨ (a.packageversion = b.packageversion ∧
            (a.appname < b.appname ∨ (a.appname = b.appname ∧
              a.deploymentid ≤ b.deploymentid))))))) := by
  simp only [rowLeEnv, decide_eq_true_eq, envSortKey] at h
  rcases (Prod.Lex.le_iff _ _).1 h with h1 | ⟨h1, h2⟩
  · exact Or.inl h1
  · refine Or.inr ⟨h1, ?_⟩
    rcases (Prod.Lex.le_iff _ _).1 h2 with h3 | ⟨h3, h4⟩
    · exact Or.inl h3
    · refine Or.inr ⟨h3, ?_⟩
      rcases (Prod.Lex.le_iff _ _).1 h4 with h5 | ⟨h5, h6⟩
      · exact Or.inl h5
      · refine Or.inr ⟨h5, ?_⟩
        rcases (Prod.Lex.le_iff _ _).1 h6 with h7 | ⟨h7, h8⟩
        · exact Or.inl h7
        · exact Or.inr ⟨h7, h8⟩

/-- Unfold the component/application-case comparison. -/
theorem rowLeStd_elim {a b : Row} (h : rowLeStd a b = true) :
    riskRank a.risklevel < riskRank b.risklevel ∨
      (riskRank a.risklevel = riskRank b.risklevel ∧
        (a.packagename < b.packagename ∨ (a.packagename = b.packagename ∧
          a.packageversion ≤ b.packageversion))) := by
  simp only [rowLeStd, decide_eq_true_eq, stdSortKey] at h
  rcases (Prod.Lex.le_iff _ _).1 h with h1 | ⟨h1, h2⟩
  · exact Or.inl h1
  · refine Or.inr ⟨h1, ?_⟩
    rcases (Prod.Lex.le_iff _ _).1 h2 with h3 | ⟨h3, h4⟩
    · exact Or.inl h3
    · exact Or.inr ⟨h3, h4⟩

/-! ## C2 — sort precedence -/

/-- C2: in the sorted result, for any two rows whose risk categories differ,
the row with the higher-precedence category (`Critical > High > Medium > Low
> Unknown`, i.e. the smaller `riskRank`) appears first, whatever every other
field holds; rows of equal category are in lexicographic
`(packagename, packageversion)` order, and the environment-case sort
additionally orders by `(appname, deploymentid)` after package identity. -/
theorem claim_C2 (rows : List Row) :
    (∀ i j : Fin (sortRowsEnv rows).length, i < j →
      (riskRank ((sortRowsEnv rows).get i).risklevel ≠
          riskRank ((sortRowsEnv rows).get j).risklevel →
        riskRank ((sortRowsEnv rows).get i).risklevel <
          riskRank ((sortRowsEnv rows).get j).risklevel) ∧
      (riskRank ((sortRowsEnv rows).get i).risklevel =
          riskRank ((sortRowsEnv rows).get j).risklevel →
        ((sortRowsEnv rows).get i).packagename < ((sortRowsEnv rows).get j).packagename ∨
          (((sortRowsEnv rows).get i).packagename = ((sortRowsEnv rows).get j).packagename ∧
            (((sortRowsEnv rows).get i).packageversion <
                ((sortRowsEnv rows).get j).packageversion ∨
              (((sortRowsEnv rows).get i).packageversion =
                  ((sortRowsEnv rows).get j).packageversion ∧
                (((sortRowsEnv rows).get i).appname < ((sortRowsEnv rows).get j).appname ∨
                  (((sortRowsEnv rows).get i).appname = ((sortRowsEnv rows).get j).appname ∧
                    ((sortRowsEnv rows).get i).deploymentid ≤
                      ((sortRowsEnv rows).get j).deploymentid))))))) ∧
    (∀ i j : Fin (sortRowsStd rows).length, i < j →
      (riskRank ((sortRowsStd rows).get i).risklevel ≠
          riskRank ((sortRowsStd rows).get j).risklevel →
        riskRank ((sortRowsStd rows).get i).risklevel <
          riskRank ((sortRowsStd rows).get j).risklevel) ∧
      (riskRank ((sortRowsStd rows).get i).risklevel =
          riskRank ((sortRowsStd rows).get j).risklevel →
        ((sortRowsStd rows).get i).packagename < ((sortRowsStd rows).get j).packagename ∨
          (((sortRowsStd rows).get i).packagename = ((sortRowsStd rows).get j).packagename ∧
            ((sortRowsStd rows).get i).packageversion ≤
              ((sortRowsStd rows).get j).packageversion))) := by
  constructor
  · intro i j hij
    have h := List.pairwise_iff_get.1 (sortRowsEnv_pairwise rows) i j hij
    constructor
    · intro hne
      rcases rowLeEnv_elim h with h1 | ⟨h1, -⟩
      · exact h1
      · exact absurd h1 hne
    · intro heq
      rcases rowLeEnv_elim h with h1 | ⟨-, h2⟩
      · exact absurd heq (ne_of_lt h1)
      · exact h2
  · intro i j hij
    have h := List.pairwise_iff_get.1 (sortRowsStd_pairwise rows) i j hij
    constructor
    · intro hne
      rcases rowLeStd_elim h with h1 | ⟨h1, -⟩
      · exact h1
      · exact absurd h1 hne
    · intro heq
      rcases rowLeStd_elim h with h1 | ⟨-, h2⟩
      · exact absurd heq (ne_of_lt h1)
      · exact h2

/-- A two-row frame for the C2 witness: a `Low` row whose other sort fields
precede those of a `Critical` row. -/
def rowsC2 : List Row :=
  [⟨"", 0, "abc", "1.0", "", "", "", "", "", "Low"⟩,
   ⟨"", 0, "zlib", "2.0", "", "", "", "", "", "Critical"⟩]

/-- Evaluation of the environment-case sort on `rowsC2`. -/
theorem rowsC2_sorted :
    sortRowsEnv rowsC2 =
      [⟨"", 0, "zlib", "2.0", "", "", "", "", "", "Critical"⟩,
       ⟨"", 0, "abc", "1.0", "", "", "", "", "", "Low"⟩] := by
  simp +decide [sortRowsEnv, List.mergeSort, List.merge, rowsC2, rowLeEnv, envSortKey, riskRank]

/-- The sorted frame still has two rows. -/
theorem rowsC2_len0 : 0 < (sortRowsEnv rowsC2).length := by
  rw [rowsC2_sorted]
  decide

/-- The sorted frame still has two rows. -/
theorem rowsC2_len1 : 1 < (sortRowsEnv rowsC2).length := by
  rw [rowsC2_sorted]
  decide

/-- C2 witness: on `rowsC2` the `Critical` row sorts ahead of the `Low` row
although every other field of the `Low` row is smaller. -/
theorem claim_C2_witness :
    riskRank ((sortRowsEnv rowsC2).get ⟨0, rowsC2_len0⟩).risklevel <
      riskRank ((sortRowsEnv rowsC2).get ⟨1, rowsC2_len1⟩).risklevel := by
  have hne : riskRank ((sortRowsEnv rowsC2).get ⟨0, rowsC2_len0⟩).risklevel ≠
      riskRank ((sortRowsEnv rowsC2).get ⟨1, rowsC2_len1⟩).risklevel := by
    rw [List.get_of_eq rowsC2_sorted, List.get_of_eq rowsC2_sorted]
    decide
  exact ((claim_C2 rowsC2).1 ⟨0, rowsC2_len0⟩ ⟨1, rowsC2_len1⟩ (by decide)).1 hne

/-! ## C10 — implicit risk-level collapsing -/

/-- The effective sort code is at most 4. -/
theorem riskRank_le_four (s : String) : riskRank s ≤ 4 := by
  rw [riskRank]
  repeat' split
  all_goals omega

/-- A value outside the four categories normalizes to the empty string. -/
theorem riskNormalize_of_rank_four {s : String} (h : riskRank s = 4) :
    riskNormalize s = "" := by
  have h1 : s ≠ "Critical" := by
    intro e
    rw [riskRank] at h
    simp [e] at h
  have h2 : s ≠ "High" := by
    intro e
    rw [riskRank] at h
    simp [e] at h
  have h3 : s ≠ "Medium" := by
    intro e
    rw [riskRank] at h
    simp [e] at h
  have h4 : s ≠ "Low" := by
    intro e
    rw [riskRank] at h
    simp [e] at h
  simp [riskNormalize, h1, h2, h3, h4]

/-- C10: the classification of line 402 recognizes only the four exact
strings `"Critical"`, `"High"`, `"Medium"`, `"Low"`; any other `risklevel`
value — including the literal `"Unknown"` that vulnerability records may
carry — is collapsed to the empty string, lands in the fifth (no-risk)
sub-table mask, and sorts after every recognized category in both sort
variants. -/
theorem claim_C10 :
    (∀ s : String, s ≠ "Critical" → s ≠ "High" → s ≠ "Medium" → s ≠ "Low" →
      riskNormalize s = "" ∧ riskRank s = 4) ∧
    (riskNormalize "Unknown" = "" ∧ riskRank "Unknown" = 4) ∧
    (riskNormalize "Critical" = "Critical" ∧ riskRank "Critical" = 0) ∧
    (riskNormalize "High" = "High" ∧ riskRank "High" = 1) ∧
    (riskNormalize "Medium" = "Medium" ∧ riskRank "Medium" = 2) ∧
    (riskNormalize "Low" = "Low" ∧ riskRank "Low" = 3) ∧
    (∀ rows : List Row, ∀ r ∈ rows, riskRank r.risklevel = 4 →
      { r with risklevel := riskNormalize r.risklevel } ∈
        bucketRows (normalizeRisk rows) "") ∧
    (∀ rows : List Row, ∀ i j : Fin (sortRowsStd rows).length, i < j →
      riskRank ((sortRowsStd rows).get i).risklevel = 4 →
      riskRank ((sortRowsStd rows).get j).risklevel = 4) ∧
    (∀ rows : List Row, ∀ i j : Fin (sortRowsEnv rows).length, i < j →
      riskRank ((sortRowsEnv rows).get i).risklevel = 4 →
      riskRank ((sortRowsEnv rows).get j).risklevel = 4) := by
  refine ⟨?_, by decide, by decide, by decide, by decide, by decide, ?_, ?_, ?_⟩
  · intro s h1 h2 h3 h4
    constructor
    · simp [riskNormalize, h1, h2, h3, h4]
    · simp [riskRank, h1, h2, h3, h4]
  · intro rows r hr h4
    rw [bucketRows, List.mem_filter]
    refine ⟨List.mem_map.2 ⟨r, hr, rfl⟩, ?_⟩
    simp [riskNormalize_of_rank_four h4]
  · intro rows i j hij h4
    have h := List.pairwise_iff_get.1 (sortRowsStd_pairwise rows) i j hij
    have hle := riskRank_le_four ((sortRowsStd rows).get j).risklevel
    rcases rowLeStd_elim h with h1 | ⟨h1, -⟩
    · omega
    · omega
  · intro rows i j hij h4
    have h := List.pairwise_iff_get.1 (sortRowsEnv_pairwise rows) i j hij
    have hle := riskRank_le_four ((sortRowsEnv rows).get j).risklevel
    rcases rowLeEnv_elim h with h1 | ⟨h1, -⟩
    · omega
    · omega

/-- A one-row frame whose `risklevel` is the literal `"Unknown"`. -/
def rowC10 : Row := ⟨"", 0, "pkg", "1.0", "MIT", "comp", "", "", "", "Unknown"⟩

/-- C10 witness: an unrecognized literal and the `"Unknown"` literal both
collapse to `""`, and the `"Unknown"` row lands in the no-risk mask. -/
theorem claim_C10_witness :
    (riskNormalize "garbage" = "" ∧ riskRank "garbage" = 4) ∧
    riskNormalize "Unknown" = "" ∧
    { rowC10 with risklevel := riskNormalize rowC10.risklevel } ∈
      bucketRows (normalizeRisk [rowC10]) "" :=
  ⟨claim_C10.1 "garbage" (by decide) (by decide) (by decide) (by decide),
   claim_C10.2.1.1,
   claim_C10.2.2.2.2.2.2.1 [rowC10] rowC10 (List.mem_singleton.2 rfl) (by decide)⟩

/-! ## C8 — bucket partition invariant -/

/-- Normalization always lands in one of the five mask values. -/
theorem riskNormalize_mem_bucketLevels (s : String) : riskNormalize s ∈ bucketLevels := by
  by_cases h1 : s = "Critical"
  · simp [riskNormalize, bucketLevels, h1]
  by_cases h2 : s = "High"
  · simp [riskNormalize, bucketLevels, h2]
  by_cases h3 : s = "Medium"
  · simp [riskNormalize, bucketLevels, h3]
  by_cases h4 : s = "Low"
  · simp [riskNormalize, bucketLevels, h4]
  simp [riskNormalize, bucketLevels, h1, h2, h3, h4]

/-- Every row of the final (sorted, normalized, linkified) frame carries a
normalized `risklevel`. -/
theorem mem_final_risklevel {rows : List Row} {r : Row}
    (h : r ∈ applyCVE (normalizeRisk rows)) : ∃ s, r.risklevel = riskNormalize s := by
  obtain ⟨r1, hr1, rfl⟩ := List.mem_map.1 h
  obtain ⟨r0, hr0, rfl⟩ := List.mem_map.1 hr1
  exact ⟨r0.risklevel, rfl⟩

/-- The five masks partition any frame whose rows carry one of the five
values: the mask lengths add up to the frame length. -/
theorem bucket_partition_length (F : List Row)
    (h : ∀ r ∈ F, r.risklevel ∈ bucketLevels) :
    (bucketRows F "Critical").length + (bucketRows F "High").length +
      (bucketRows F "Medium").length + (bucketRows F "Low").length +
      (bucketRows F "").length = F.length := by
  induction F with
  | nil => rfl
  | cons r t ih =>
    have hr := h r (List.mem_cons_self r t)
    have iht := ih (fun x hx => h x (List.mem_cons_of_mem r hx))
    simp only [bucketLevels, List.mem_cons, List.not_mem_nil, or_false] at hr
    rcases hr with h0 | h0 | h0 | h0 | h0 <;>
      · simp +decide only [bucketRows, List.filter_cons, h0, List.length_cons,
          List.length_nil] at iht ⊢
        simp_arith [bucketRows] at iht ⊢
        omega

/-- C8: after sorting (and normalization and CVE linkification), the five
severity masks of lines 422-426 form a partition of the full correlated
frame — every row carries one of the five mask values and lies in exactly
the mask of its own `Risk Level`; distinct masks are disjoint; each mask
preserves the overall sort order (it is a sublist of the frame); and each
rendered sub-table is its mask's rows with the `Risk Level` column dropped.
Both the environment-case and the component/application-case frames are
covered. -/
theorem claim_C8 (rows : List Row) :
    (∀ r ∈ applyCVE (normalizeRisk (sortRowsEnv rows)), r.risklevel ∈ bucketLevels) ∧
    (∀ r ∈ applyCVE (normalizeRisk (sortRowsStd rows)), r.risklevel ∈ bucketLevels) ∧
    (∀ F : List Row, ∀ r ∈ F, ∀ l : String, r ∈ bucketRows F l ↔ l = r.risklevel) ∧
    (∀ F : List Row, ∀ l₁ l₂ : String, l₁ ≠ l₂ → ∀ r,
      r ∈ bucketRows F l₁ → r ∉ bucketRows F l₂) ∧
    ((bucketRows (applyCVE (normalizeRisk (sortRowsEnv rows))) "Critical").length +
        (bucketRows (applyCVE (normalizeRisk (sortRowsEnv rows))) "High").length +
        (bucketRows (applyCVE (normalizeRisk (sortRowsEnv rows))) "Medium").length +
        (bucketRows (applyCVE (normalizeRisk (sortRowsEnv rows))) "Low").length +
        (bucketRows (applyCVE (normalizeRisk (sortRowsEnv rows))) "").length =
      (applyCVE (normalizeRisk (sortRowsEnv rows))).length) ∧
    ((bucketRows (applyCVE (normalizeRisk (sortRowsStd rows))) "Critical").length +
        (bucketRows (applyCVE (normalizeRisk (sortRowsStd rows))) "High").length +
        (bucketRows (applyCVE (normalizeRisk (sortRowsStd rows))) "Medium").length +
        (bucketRows (applyCVE (normalizeRisk (sortRowsStd rows))) "Low").length +
        (bucketRows (applyCVE (normalizeRisk (sortRowsStd rows))) "").length =
      (applyCVE (normalizeRisk (sortRowsStd rows))).length) ∧
    (∀ F : List Row, ∀ l : String, (bucketRows F l).Sublist F) ∧
    (∀ F : List Row, ∀ l : String,
      severityTableEnv F l = (bucketRows F l).map toEnvDisplay ∧
      severityTableStd F l = (bucketRows F l).map toStdDisplay) := by
  have hmem : ∀ rs : List Row, ∀ r ∈ applyCVE (normalizeRisk rs), r.risklevel ∈ bucketLevels := by
    intro rs r hr
    obtain ⟨s, hs⟩ := mem_final_risklevel hr
    rw [hs]
    exact riskNormalize_mem_bucketLevels s
  refine ⟨hmem _, hmem _, ?_, ?_, ?_, ?_, ?_, fun F l => ⟨rfl, rfl⟩⟩
  · intro F r hrF l
    constructor
    · intro hl
      exact (beq_iff_eq.1 (List.mem_filter.1 hl).2).symm
    · intro hl
      exact List.mem_filter.2 ⟨hrF, beq_iff_eq.2 hl.symm⟩
  · intro F l₁ l₂ hne r h1 h2
    have e1 := beq_iff_eq.1 (List.mem_filter.1 h1).2
    have e2 := beq_iff_eq.1 (List.mem_filter.1 h2).2
    exact hne (e1 ▸ e2 ▸ rfl)
  · exact bucket_partition_length _ (hmem _)
  · exact bucket_partition_length _ (hmem _)
  · intro F l
    exact List.filter_sublist F

/-- A one-row frame (an `Unknown`-level finding) for the C8 witness. -/
def rowsC8 : List Row := [⟨"", 0, "pkg", "1.0", "MIT", "comp", "", "", "", "Unknown"⟩]

/-- The final component/application-case frame over `rowsC8`, evaluated. -/
theorem rowsC8_final :
    applyCVE (normalizeRisk (sortRowsStd rowsC8)) =
      [⟨"", 0, "pkg", "1.0", "MIT", "comp", "", "", "", ""⟩] := by
  simp +decide [applyCVE, normalizeRisk, sortRowsStd, List.mergeSort, rowsC8,
    riskNormalize, displayCVE]

/-- C8 witness: the single final row of `rowsC8` carries one of the five mask
values and lies exactly in the mask of its own (empty) `Risk Level`. -/
theorem claim_C8_witness :
    (⟨"", 0, "pkg", "1.0", "MIT", "comp", "", "", "", ""⟩ : Row).risklevel ∈ bucketLevels ∧
    ((⟨"", 0, "pkg", "1.0", "MIT", "comp", "", "", "", ""⟩ : Row) ∈
        bucketRows (applyCVE (normalizeRisk (sortRowsStd rowsC8))) "" ↔
      "" = (⟨"", 0, "pkg", "1.0", "MIT", "comp", "", "", "", ""⟩ : Row).risklevel) :=
  ⟨(claim_C8 rowsC8).2.1 _ (by rw [rowsC8_final]; exact List.mem_singleton.2 rfl),
   (claim_C8 rowsC8).2.2.1 _ _ (by rw [rowsC8_final]; exact List.mem_singleton.2 rfl) ""⟩

/-! ## C1 — correlation completeness -/

/-- `filter` commutes with `dedup`. -/
theorem filter_dedup_comm {α : Type} [DecidableEq α] (q : α → Bool) (l : List α) :
    l.dedup.filter q = (l.filter q).dedup := by
  induction l with
  | nil => rfl
  | cons a t ih =>
    by_cases ha : a ∈ t
    · rw [List.dedup_cons_of_mem ha]
      by_cases hq : q a = true
      · rw [List.filter_cons_of_pos hq, List.dedup_cons_of_mem (List.mem_filter.2 ⟨ha, hq⟩)]
        exact ih
      · rw [List.filter_cons_of_neg (by simp [hq])]
        exact ih
    · rw [List.dedup_cons_of_not_mem ha]
      by_cases hq : q a = true
      · rw [List.filter_cons_of_pos hq, List.filter_cons_of_pos hq,
          List.dedup_cons_of_not_mem (fun hmem => ha (List.mem_filter.1 hmem).1), ih]
      · rw [List.filter_cons_of_neg (by simp [hq]), List.filter_cons_of_neg (by simp [hq])]
        exact ih

/-- A vulnerability matching a package of the frame passes the candidate
query's key condition (its composite key is in `:pkglist`). -/
theorem matches_implies_selected {pkgs : List PkgRow} {p : PkgRow} (hp : p ∈ pkgs)
    {v : VulnRow} (hm : matchesPkg p v = true) : vulnSelected pkgs v = true := by
  rw [matchesPkg, Bool.and_eq_true] at hm
  obtain ⟨h1, h2⟩ := hm
  have hkey : vulnKey v = pkgKey p := by
    rw [vulnKey, pkgKey, beq_iff_eq.1 h1, beq_iff_eq.1 h2]
  rw [vulnSelected]
  apply Bool.or_eq_true_iff.2
  left
  rw [hkey]
  exact List.elem_eq_true_of_mem (List.mem_map.2 ⟨p, hp, rfl⟩)

/-- For a package of the frame, filtering the deduplicated candidate pool by
its composite key yields exactly the distinct matching records of the
staged-plus-persisted corpus. -/
theorem df_vulns_filter_matches {staged persisted : List VulnRow} {pkgs : List PkgRow}
    {p : PkgRow} (hp : p ∈ pkgs) :
    (df_vulns staged persisted pkgs).filter (matchesPkg p) =
      ((staged ++ persisted).filter (matchesPkg p)).dedup := by
  rw [df_vulns, filter_dedup_comm, List.filter_filter]
  congr 1
  apply List.filter_congr
  intro v hv
  cases hm : matchesPkg p v with
  | false => rfl
  | true => rw [Bool.true_and, matches_implies_selected hp hm]

/-- A package row always contributes at least one merged row. -/
theorem mergedRowsFor_ne_nil (vulns : List VulnRow) (p : PkgRow) :
    mergedRowsFor vulns p ≠ [] := by
  rw [mergedRowsFor]
  cases hf : vulns.filter (matchesPkg p) <;> simp

/-- Every merged row of a package row carries that package's identity. -/
theorem mem_mergedRowsFor_fields {vulns : List VulnRow} {p : PkgRow} {r : Row}
    (h : r ∈ mergedRowsFor vulns p) :
    r.packagename = p.packagename ∧ r.packageversion = p.packageversion := by
  rw [mergedRowsFor] at h
  cases hf : vulns.filter (matchesPkg p) with
  | nil =>
    rw [hf] at h
    obtain rfl := List.mem_singleton.1 h
    exact ⟨rfl, rfl⟩
  | cons v vs =>
    rw [hf] at h
    obtain ⟨v0, hv0, rfl⟩ := List.mem_map.1 h
    exact ⟨rfl, rfl⟩

/-- The merged-row count of one package row: one row per matching candidate,
one fallback row when nothing matches. -/
theorem mergedRowsFor_length (vulns : List VulnRow) (p : PkgRow) :
    (mergedRowsFor vulns p).length = max 1 (vulns.filter (matchesPkg p)).length := by
  rw [mergedRowsFor]
  cases hf : vulns.filter (matchesPkg p) with
  | nil => rfl
  | cons v vs =>
    simp only [List.length_map, List.length_cons]
    omega

/-- C1: for every row `p` of the package table, the left outer join against
the deduplicated staged-plus-persisted candidate pool (joined on the
`(packagename, packageversion)` composite key) contains `p`'s package at
least once; when no vulnerability matches, `p` yields exactly one row whose
vulnerability fields are all the empty string; and in general `p` yields
`max 1 N` rows where `N` is the number of distinct matching vulnerability
records in the staged-plus-persisted corpus — exactly `N` rows when `N ≥ 1`. -/
theorem claim_C1 (pkgs : List PkgRow) (staged persisted : List VulnRow) (p : PkgRow)
    (hp : p ∈ pkgs) :
    (∃ r ∈ leftMergeFill pkgs (df_vulns staged persisted pkgs),
      r.packagename = p.packagename ∧ r.packageversion = p.packageversion) ∧
    (∀ r ∈ mergedRowsFor (df_vulns staged persisted pkgs) p,
      r ∈ leftMergeFill pkgs (df_vulns staged persisted pkgs)) ∧
    (((staged ++ persisted).filter (matchesPkg p)) = [] →
      mergedRowsFor (df_vulns staged persisted pkgs) p =
        [⟨p.appname, p.deploymentid, p.packagename, p.packageversion, p.name, p.compname,
          "", "", "", ""⟩]) ∧
    ((mergedRowsFor (df_vulns staged persisted pkgs) p).length =
      max 1 ((staged ++ persisted).filter (matchesPkg p)).dedup.length) := by
  have hfil := @df_vulns_filter_matches staged persisted pkgs p hp
  refine ⟨?_, ?_, ?_, ?_⟩
  · obtain ⟨r, hr⟩ := List.exists_mem_of_ne_nil _ (mergedRowsFor_ne_nil (df_vulns staged persisted pkgs) p)
    exact ⟨r, List.mem_flatMap.2 ⟨p, hp, hr⟩, mem_mergedRowsFor_fields hr⟩
  · intro r hr
    exact List.mem_flatMap.2 ⟨p, hp, hr⟩
  · intro h0
    rw [mergedRowsFor, hfil, h0]
    rfl
  · rw [mergedRowsFor_length, hfil]

/-- The single package row of the C1 witness. -/
def pkgC1 : PkgRow := ⟨"", 0, "left-pad", "1.0.0", "MIT", "", "", "comp", none, "npm"⟩

/-- The package table of the C1 witness. -/
def pkgsC1 : List PkgRow := [pkgC1]

/-- One staged vulnerability matching `pkgC1` by composite key, staged twice
(the duplicate must collapse in the candidate pool). -/
def stagedC1 : List VulnRow :=
  [⟨"CVE-1", "left-pad", "1.0.0", none, "bad", "High"⟩,
   ⟨"CVE-1", "left-pad", "1.0.0", none, "bad", "High"⟩]

/-- C1 witness: on the concrete frame, the package appears in the join and
contributes exactly one row — its two duplicate candidate records count as
one distinct matching vulnerability. -/
theorem claim_C1_witness :
    (∃ r ∈ leftMergeFill pkgsC1 (df_vulns stagedC1 [] pkgsC1),
      r.packagename = pkgC1.packagename ∧ r.packageversion = pkgC1.packageversion) ∧
    (mergedRowsFor (df_vulns stagedC1 [] pkgsC1) pkgC1).length =
      max 1 ((stagedC1 ++ []).filter (matchesPkg pkgC1)).dedup.length ∧
    (mergedRowsFor (df_vulns stagedC1 [] pkgsC1) pkgC1).length = 1 :=
  ⟨(claim_C1 pkgsC1 stagedC1 [] pkgC1 (by decide)).1,
   (claim_C1 pkgsC1 stagedC1 [] pkgC1 (by decide)).2.2.2,
   by decide⟩
